import Mathlib

/-!
Shallow embedding of the SelfDB backend and storage service, covering:
the storage-service download/view/direct-upload endpoints, the realtime
subscription router, the bucket coordinator, the CORS origin cache and
middleware, path resolution in the optimized object store, and the
backend storage client's file deletion.  Each definition is translated
from the corresponding Python function of the repository.
-/

namespace SelfDB

/-! ## Storage service: requesters and bucket metadata
Mirrors `storage_service/app/apis/deps.py` (`TokenData`, `ANON_USER_ROLE`,
`get_current_user_or_anon` returns `TokenData | "anon" | None`). -/

/-- A requester as resolved by `get_current_user_or_anon`. -/
inductive StorageRequester where
  | tokenData (sub : String) (isSuperuser : Bool)
  | anonRole
  | noAuth
deriving DecidableEq

/-- `True` exactly for the `TokenData` variant. -/
def StorageRequester.isAuthToken : StorageRequester → Bool
  | .tokenData _ _ => true
  | _ => false

/-- Sidecar bucket metadata (`.metadata.json`) fields used by permission checks. -/
structure BucketMetadata where
  isPublic : Bool
  ownerId : String
deriving DecidableEq

/-- The parts of the filesystem state that the download/view handlers consult. -/
structure StorageWorld where
  bucketExists : Bool
  metadata : Option BucketMetadata
  fileExists : Bool
deriving DecidableEq

/-- Result of a download/view request: a served file path or an HTTP rejection. -/
inductive DownloadResult where
  | served (path : String)
  | rejected (statusCode : Nat)
deriving DecidableEq

/-- Whether `pat` occurs as a contiguous subsequence of the list
(Python's `pat in s` on strings, on the character level). -/
def hasSubSeq (pat : List Char) : List Char → Bool
  | [] => List.isPrefixOf pat []
  | c :: rest => List.isPrefixOf pat (c :: rest) || hasSubSeq pat rest

/-- `s.startswith(pre)`, computed on the character lists so that closed
instances reduce inside the kernel. -/
def strStartsWith (s pre : String) : Bool :=
  List.isPrefixOf pre.toList s.toList

/-- Drop the first `n` characters of a string. -/
def strDrop (s : String) (n : Nat) : String :=
  String.mk (s.toList.drop n)

/-- Join strings with a separator (`sep.join(l)`). -/
def strIntercalate (sep : String) (l : List String) : String :=
  String.mk (List.intercalate sep.toList (l.map String.toList))

/-- The unsafe-filename test at the top of `download_file`/`view_file`:
`".." in filename or filename.startswith('.')`. -/
def badDownloadName (filename : String) : Bool :=
  hasSubSeq "..".toList filename.toList || strStartsWith filename "."

/-- `storage_service/app/apis/endpoints/files.py::download_file`.
Order of checks follows the source: unsafe-name 400, bucket 404, metadata 500,
permission (anon/none require a public bucket; any `TokenData` requester is
let through), then `get_file_path`'s leading-slash 400 and the existence 404. -/
def downloadFile (w : StorageWorld) (filename : String) (requester : StorageRequester) :
    DownloadResult :=
  if badDownloadName filename then .rejected 400
  else if !w.bucketExists then .rejected 404
  else
    match w.metadata with
    | none => .rejected 500
    | some md =>
      let serve : DownloadResult :=
        if strStartsWith filename "/" then .rejected 400
        else if !w.fileExists then .rejected 404
        else .served filename
      match requester with
      | .anonRole => if !md.isPublic then .rejected 403 else serve
      | .noAuth => if !md.isPublic then .rejected 403 else serve
      | .tokenData _ _ => serve

/-- `storage_service/app/apis/endpoints/files.py::view_file`.
The gating logic is a literal duplicate of `download_file`; the only
differences (inline disposition, content-type inference) do not affect
whether the file is served. -/
def viewFile (w : StorageWorld) (filename : String) (requester : StorageRequester) :
    DownloadResult :=
  if badDownloadName filename then .rejected 400
  else if !w.bucketExists then .rejected 404
  else
    match w.metadata with
    | none => .rejected 500
    | some md =>
      let serve : DownloadResult :=
        if strStartsWith filename "/" then .rejected 400
        else if !w.fileExists then .rejected 404
        else .served filename
      match requester with
      | .anonRole => if !md.isPublic then .rejected 403 else serve
      | .noAuth => if !md.isPublic then .rejected 403 else serve
      | .tokenData _ _ => serve

/-- The spec's stated authorization rule for download/view (`spec.md` §4.8):
principal owns the bucket, is superuser, or the bucket is public.  Written
from the spec's words for comparison against `downloadFile`/`viewFile`. -/
def specDownloadAccess (r : StorageRequester) (md : BucketMetadata) : Bool :=
  match r with
  | .tokenData sub isSuperuser => (sub == md.ownerId) || isSuperuser || md.isPublic
  | .anonRole => md.isPublic
  | .noAuth => md.isPublic

/-! ## Storage service: direct upload (`direct_upload_file`) -/

/-- The object-name safety test used by `direct_upload_file` and
`get_file_path`: `".." in name or name.startswith("/")`. -/
def badObjectName (name : String) : Bool :=
  hasSubSeq "..".toList name.toList || strStartsWith name "/"

/-- A PUT request to `upload-direct/{bucket}/{object}`.  The `ticket` field
records whatever credential the caller presented; the handler has no
authentication dependency, so no field of the request is checked for it. -/
structure PutRequest where
  ticket : Option String
  contentType : String
  body : List Nat
  multipartFile : Option (List Nat)
deriving DecidableEq

/-- Result of a direct upload: bytes written to disk, or an HTTP rejection. -/
inductive UploadResult where
  | stored (content : List Nat)
  | rejected (statusCode : Nat)
deriving DecidableEq

/-- `storage_service/app/apis/endpoints/files.py::direct_upload_file`.
404 for a missing bucket directory, 400 for an unsafe object name, then the
body (or the `file` multipart field) is written to disk.  No authentication
of any kind is performed: `req.ticket` is never consulted. -/
def directUploadFile (bucketDirExists : Bool) (objectName : String) (req : PutRequest) :
    UploadResult :=
  if !bucketDirExists then .rejected 404
  else if badObjectName objectName then .rejected 400
  else if strStartsWith req.contentType "multipart/form-data" then
    match req.multipartFile with
    | none => .rejected 400
    | some content => .stored content
  else .stored req.body

/-! ## Realtime router (`backend/app/apis/endpoints/realtime.py`) -/

/-- Association-list removal of a key (`del d[k]` on a Python dict). -/
def removeKey {α β : Type} [BEq α] (k : α) (l : List (α × β)) : List (α × β) :=
  l.filter (fun p => !(p.1 == k))

/-- Association-list update of a key that is present (`d[k] = v`,
or the in-place mutation of the list stored under `k`). -/
def setKey {α β : Type} [BEq α] (k : α) (v : β) (l : List (α × β)) : List (α × β) :=
  l.map (fun p => if p.1 == k then (k, v) else p)

/-- `ConnectionManager` state: `active_connections` (user id to sockets),
`connection_user` (socket to user id), `subscriptions` (user id to a map
from subscription id to the optional table filter of its data). -/
structure ConnectionManager where
  activeConnections : List (String × List Nat)
  connectionUser : List (Nat × String)
  subscriptions : List (String × List (String × Option String))
deriving DecidableEq

/-- `ConnectionManager.disconnect`: removes the socket from
`active_connections` (dropping the user's entry when its list empties) and
from `connection_user`.  `subscriptions` is not touched. -/
def disconnect (m : ConnectionManager) (ws : Nat) : ConnectionManager :=
  match m.connectionUser.lookup ws with
  | none => m
  | some uid =>
    let newActive :=
      match m.activeConnections.lookup uid with
      | none => m.activeConnections
      | some conns =>
        let conns' := conns.erase ws
        if conns'.isEmpty then removeKey uid m.activeConnections
        else setKey uid conns' m.activeConnections
    { activeConnections := newActive
      connectionUser := removeKey ws m.connectionUser
      subscriptions := m.subscriptions }

/-- The sockets `broadcast_to_user` writes to: the user's entry in
`active_connections`, or nothing when the user has no entry. -/
def broadcastTargets (m : ConnectionManager) (uid : String) : List Nat :=
  (m.activeConnections.lookup uid).getD []

/-- Well-formedness `ConnectionManager` maintains: each user's socket list is
duplicate-free, and a socket listed under a user maps back to that user in
`connection_user`. -/
structure ManagerWF (m : ConnectionManager) : Prop where
  nodupConns : ∀ uid conns, m.activeConnections.lookup uid = some conns → conns.Nodup
  connsOwned : ∀ uid conns ws, m.activeConnections.lookup uid = some conns →
    ws ∈ conns → m.connectionUser.lookup ws = some uid

/-- A concrete manager: user `"u"` holds socket `1` and one subscription
`"sub1"` filtered on table `"notes"`. -/
def exampleManager : ConnectionManager :=
  { activeConnections := [("u", [1])]
    connectionUser := [(1, "u")]
    subscriptions := [("u", [("sub1", some "notes")])] }

/-! ## Realtime router: notification matching (`handle_database_notification`) -/

/-- A parsed `NOTIFY` payload `{operation, table, data?, old_data?}`; the
`table` field is read with `data.get("table")` and may be absent. -/
structure ChangePayload where
  table : Option String
  operation : String
  data : Option String
  oldData : Option String
deriving DecidableEq

/-- A registered subscription: owner, subscription id and the optional
`table` filter of its subscription data. -/
structure SubEntry where
  userId : String
  subId : String
  table : Option String
deriving DecidableEq

/-- The `special_channels` keys of `handle_database_notification`. -/
def specialChannels : List String := ["buckets_changes", "functions_changes", "tables_changes"]

/-- The frame sent on a match:
`{type: "database_change", subscription_id: sid, data: payload}`. -/
structure Frame where
  type : String
  subscriptionId : String
  data : ChangePayload
deriving DecidableEq

/-- The matching cascade of `handle_database_notification`, in source order:
table filter equality, subscription id equals the channel, the
`tables_changes` wildcard, then the special-channel alias check. -/
def shouldNotify (subTable : Option String) (subId channel : String)
    (payloadTable : Option String) : Bool :=
  if subTable == payloadTable then true
  else if subId == channel then true
  else if subId == "tables_changes" then true
  else if specialChannels.contains subId && channel == subId then true
  else false

/-- Per-subscription outcome of `handle_database_notification`: the frame
broadcast to the subscription's owner, or nothing. -/
def notifyDecision (channel : String) (payload : ChangePayload) (e : SubEntry) :
    Option (String × Frame) :=
  if shouldNotify e.table e.subId channel payload.table then
    some (e.userId, { type := "database_change", subscriptionId := e.subId, data := payload })
  else none

/-- `handle_database_notification`: the sends produced for one notification,
one per matching registered subscription. -/
def handleDatabaseNotification (channel : String) (payload : ChangePayload)
    (subs : List SubEntry) : List (String × Frame) :=
  subs.filterMap (notifyDecision channel payload)

/-! ## Bucket coordinator (`backend/app/crud/bucket.py`, `endpoints/buckets.py`) -/

/-- Collapse runs of hyphens to a single hyphen (`re.sub(r'-+', '-', text)`). -/
def collapseHyphens : List Char → List Char
  | [] => []
  | [c] => [c]
  | a :: b :: rest =>
    if a == '-' && b == '-' then collapseHyphens (b :: rest)
    else a :: collapseHyphens (b :: rest)

/-- Membership in the slug alphabet `[a-z0-9-]`. -/
def slugChar (c : Char) : Bool :=
  ('a' ≤ c && c ≤ 'z') || ('0' ≤ c && c ≤ '9') || c == '-'

/-- `crud/bucket.py::slugify`: lowercase, spaces to hyphens, drop everything
outside `[a-z0-9-]`, collapse hyphen runs, strip boundary hyphens. -/
def slugify (s : String) : String :=
  let lowered := s.toList.map Char.toLower
  let hyphenated := lowered.map (fun c => if c == ' ' then '-' else c)
  let filtered := hyphenated.filter slugChar
  let collapsed := collapseHyphens filtered
  let stripped := ((collapsed.dropWhile (· == '-')).reverse.dropWhile (· == '-')).reverse
  String.mk stripped

/-- The validation `re.match(r'^[a-z0-9\-]+$', slug)`: nonempty and all
characters in the slug alphabet. -/
def validSlug (s : String) : Bool :=
  !s.toList.isEmpty && s.toList.all slugChar

/-- A bucket row of the metadata database. -/
structure BucketRec where
  id : Nat
  name : String
  minioBucketName : String
  description : String
  isPublic : Bool
  ownerId : String
deriving DecidableEq

/-- `crud/bucket.py::create_bucket`: slug validation, duplicate display-name
check, duplicate storage-name check, then the insert.  Errors are the
`ValueError`s the endpoint later maps to HTTP statuses. -/
def crudCreateBucket (db : List BucketRec) (name description : String) (isPublic : Bool)
    (ownerId : String) (newId : Nat) : Except String (List BucketRec × BucketRec) :=
  let slug := slugify name
  if !validSlug slug then
    .error "Bucket name must contain only letters, numbers, and hyphens"
  else if db.any (fun r => r.name == name) then
    .error "A bucket with the name already exists"
  else if db.any (fun r => r.minioBucketName == slug) then
    .error "A bucket with the storage name already exists"
  else
    let b : BucketRec :=
      { id := newId, name := name, minioBucketName := slug, description := description
        isPublic := isPublic, ownerId := ownerId }
    .ok (db ++ [b], b)

/-- The row `create_bucket` inserts for a given request. -/
def newBucketRec (name description : String) (isPublic : Bool) (ownerId : String)
    (newId : Nat) : BucketRec :=
  { id := newId, name := name, minioBucketName := slugify name
    description := description, isPublic := isPublic, ownerId := ownerId }

/-- `crud/bucket.py::delete_bucket` applied to a present id: drop the row. -/
def crudDeleteBucket (db : List BucketRec) (bucketId : Nat) : List BucketRec :=
  db.filter (fun r => !(r.id == bucketId))

/-- Outcome of `create_bucket_endpoint`: HTTP status plus the two tiers. -/
structure CreateBucketOutcome where
  statusCode : Nat
  db : List BucketRec
  store : List String
deriving DecidableEq

/-- `endpoints/buckets.py::create_bucket_endpoint`.  A `ValueError` from the
crud layer becomes 400; otherwise the storage-service bucket is created
(`storeOk` says whether that call succeeds); on storage failure the fresh DB
row is deleted again and 500 is returned. -/
def createBucketEndpoint (db : List BucketRec) (store : List String) (storeOk : Bool)
    (name description : String) (isPublic : Bool) (ownerId : String) (newId : Nat) :
    CreateBucketOutcome :=
  match crudCreateBucket db name description isPublic ownerId newId with
  | .error _ => { statusCode := 400, db := db, store := store }
  | .ok (db', b) =>
    if storeOk then
      { statusCode := 201, db := db', store := store ++ [b.minioBucketName] }
    else
      { statusCode := 500, db := crudDeleteBucket db' b.id, store := store }

/-! ## CORS origins loader (`backend/app/core/cors_loader.py`) -/

/-- Loader state: the cached DB origins and the time of the last successful
refresh (`datetime.min` is modelled as instant `0`). -/
structure CorsLoaderState where
  cachedOrigins : List String
  lastRefresh : Nat
deriving DecidableEq

/-- The hardcoded default origin set of `get_all_origins`. -/
def defaultOrigins : List String :=
  ["http://localhost", "http://localhost:3000", "http://frontend:3000"]

/-- `_cache_duration = timedelta(minutes=5)`, in seconds. -/
def cacheDuration : Nat := 300

/-- `CorsOriginsLoader._get_database_origins`, sequentially (no concurrent
refresh, so `_is_refreshing` is `False` on entry).  `dbFetch` is the result
of the database query: `some l` on success, `none` when the query raises.
Returns the DB portion served and the successor state. -/
def getDatabaseOrigins (st : CorsLoaderState) (now : Nat) (dbFetch : Option (List String)) :
    List String × CorsLoaderState :=
  if now - st.lastRefresh < cacheDuration ∧ st.cachedOrigins ≠ [] then
    (st.cachedOrigins, st)
  else
    match dbFetch with
    | some l => (l, { cachedOrigins := l, lastRefresh := now })
    | none => (st.cachedOrigins, st)

/-- `CorsOriginsLoader.get_all_origins`: env origins, defaults, and the DB
portion (refreshed through `getDatabaseOrigins`). -/
def getAllOrigins (envOrigins : List String) (st : CorsLoaderState) (now : Nat)
    (dbFetch : Option (List String)) : List String × CorsLoaderState :=
  (envOrigins ++ defaultOrigins ++ (getDatabaseOrigins st now dbFetch).1,
    (getDatabaseOrigins st now dbFetch).2)

/-- `CorsOriginsLoader.invalidate_cache`: reset `_last_refresh` to
`datetime.min`. -/
def invalidateCache (st : CorsLoaderState) : CorsLoaderState :=
  { cachedOrigins := st.cachedOrigins, lastRefresh := 0 }

/-! ## Dynamic CORS middleware (`backend/app/core/dynamic_cors.py`) -/

/-- Middleware configuration. -/
structure CorsConfig where
  allowCredentials : Bool
  allowMethods : List String
  allowHeaders : List String
  exposeHeaders : List String
  maxAge : Nat
deriving DecidableEq

/-- An HTTP response as the middleware sees it. -/
structure HttpResponse where
  statusCode : Nat
  body : String
  headers : List (String × String)
deriving DecidableEq

/-- Set a header, replacing an existing entry for the key. -/
def setHeader : List (String × String) → String → String → List (String × String)
  | [], k, v => [(k, v)]
  | (k', v') :: t, k, v =>
    if k' == k then (k, v) :: t else (k', v') :: setHeader t k v

/-- Read a header. -/
def getHeader (hs : List (String × String)) (k : String) : Option String :=
  (hs.find? (fun p => p.1 == k)).map (fun p => p.2)

/-- `DynamicCORSMiddleware._is_origin_allowed`: exact membership, or a
wildcard entry. -/
def isOriginAllowed (allowed : List String) (origin : String) : Bool :=
  allowed.contains origin || allowed.contains "*"

/-- `DynamicCORSMiddleware._handle_preflight`: 403 with body
`"CORS origin not allowed"` when the origin is rejected, otherwise 200 with
the `Access-Control-*` headers. -/
def handlePreflight (cfg : CorsConfig) (allowed : List String) (origin : String) :
    HttpResponse :=
  if !isOriginAllowed allowed origin then
    { statusCode := 403, body := "CORS origin not allowed", headers := [] }
  else
    let hs := [("Access-Control-Allow-Origin", origin),
               ("Access-Control-Allow-Methods", strIntercalate ", " cfg.allowMethods),
               ("Access-Control-Allow-Headers", strIntercalate ", " cfg.allowHeaders),
               ("Access-Control-Max-Age", Nat.repr cfg.maxAge)]
    let hs := if cfg.allowCredentials
      then hs ++ [("Access-Control-Allow-Credentials", "true")] else hs
    let hs := if cfg.exposeHeaders ≠ []
      then hs ++ [("Access-Control-Expose-Headers", strIntercalate ", " cfg.exposeHeaders)]
      else hs
    { statusCode := 200, body := "", headers := hs }

/-- `DynamicCORSMiddleware._add_cors_headers`: a no-op for a disallowed
origin, otherwise sets the CORS response headers. -/
def addCorsHeaders (cfg : CorsConfig) (allowed : List String) (origin : String)
    (resp : HttpResponse) : HttpResponse :=
  if !isOriginAllowed allowed origin then resp
  else
    let hs := setHeader resp.headers "Access-Control-Allow-Origin" origin
    let hs := if cfg.allowCredentials
      then setHeader hs "Access-Control-Allow-Credentials" "true" else hs
    let hs := if cfg.exposeHeaders ≠ []
      then setHeader hs "Access-Control-Expose-Headers"
        (strIntercalate ", " cfg.exposeHeaders)
      else hs
    { resp with headers := hs }

/-- `DynamicCORSMiddleware.dispatch`: preflight handling for OPTIONS with an
origin; otherwise the inner handler's response, with CORS headers added when
an origin is present. -/
def dispatch (cfg : CorsConfig) (allowed : List String) (method : String)
    (origin : Option String) (inner : HttpResponse) : HttpResponse :=
  match origin with
  | some o =>
    if method == "OPTIONS" then handlePreflight cfg allowed o
    else addCorsHeaders cfg allowed o inner
  | none => inner

/-- A concrete middleware configuration for closed instances. -/
def exampleCorsConfig : CorsConfig :=
  { allowCredentials := true, allowMethods := ["*"], allowHeaders := ["*"]
    exposeHeaders := [], maxAge := 86400 }

/-! ## Optimized object store path resolution (`optimized_storage.py`) -/

/-- Lexical `Path.resolve()` on components: drop empty and `.` segments,
let `..` pop the last segment (clamped at the filesystem root). -/
def resolveComponents (comps : List String) : List String :=
  comps.foldl
    (fun acc c =>
      if c = "" ∨ c = "." then acc
      else if c = ".." then acc.dropLast
      else acc ++ [c])
    []

/-- Render absolute path components as the string `Path.__str__` produces. -/
def renderPath (comps : List String) : String :=
  String.mk (comps.foldl (fun acc c => acc ++ '/' :: c.toList) [])

/-- Split a character list on `/`. -/
def splitChars : List Char → List (List Char)
  | [] => [[]]
  | c :: rest =>
    if c == '/' then [] :: splitChars rest
    else
      match splitChars rest with
      | [] => [[c]]
      | seg :: segs => (c :: seg) :: segs

/-- Split a path string on `/` (Python's `s.split("/")`). -/
def splitPath (s : String) : List String :=
  (splitChars s.toList).map String.mk

/-- Result of `_get_object_path`: the resolved components, or the HTTP 400. -/
inductive PathResult where
  | ok (comps : List String)
  | rejected (statusCode : Nat)
deriving DecidableEq

/-- `OptimizedFileStorage._get_object_path`: strip one leading slash, resolve
`<base>/<bucket>/<object>` lexically, then apply the source's security check
`str(full).startswith(str(bucket_path.resolve()))`; 400 on failure, the
resolved components on success. -/
def getObjectPath (basePath : List String) (bucketName : String) (objectPath : String) :
    PathResult :=
  let objectPath := if strStartsWith objectPath "/" then strDrop objectPath 1 else objectPath
  let bucketComps := basePath ++ [bucketName]
  let fullComps := resolveComponents (bucketComps ++ splitPath objectPath)
  if strStartsWith (renderPath fullComps) (renderPath (resolveComponents bucketComps)) then
    .ok fullComps
  else
    .rejected 400

/-! ## Backend storage client and file deletion
(`backend/app/apis/deps_storage.py`, `backend/app/apis/endpoints/files.py`) -/

/-- `httpx.Response.raise_for_status`: error on any 4xx/5xx status. -/
def raiseForStatus (statusCode : Nat) : Except Nat Unit :=
  if 400 ≤ statusCode then .error statusCode else .ok ()

/-- What `StorageServiceClient.delete_file` does with a downstream HTTP
error: nothing surfaces — it is only logged. -/
inductive ClientDeleteOutcome where
  | success
  | loggedError (statusCode : Nat)
deriving DecidableEq

/-- `StorageServiceClient.delete_file`: strips a legacy `bucket/` key prefix,
issues the DELETE, and catches `httpx.HTTPStatusError` — every downstream HTTP
error status is logged and the method returns normally.  The result is the
logged outcome together with the key actually targeted. -/
def storageClientDeleteFile (bucketName objectName : String) (downstreamStatus : Nat) :
    ClientDeleteOutcome × String :=
  let key :=
    if strStartsWith objectName (String.mk (bucketName.toList ++ ['/']))
    then strDrop objectName (bucketName.toList.length + 1)
    else objectName
  match raiseForStatus downstreamStatus with
  | .ok _ => (.success, key)
  | .error s => (.loggedError s, key)

/-- A `files` row of the metadata database. -/
structure FileRec where
  id : Nat
  ownerId : String
  bucketName : String
  objectName : String
deriving DecidableEq

/-- The authenticated user of `get_current_active_user`. -/
structure UserRec where
  id : String
  isSuperuser : Bool
deriving DecidableEq

/-- Outcome of `delete_file_endpoint`: HTTP status, the resulting `files`
table, and the storage client's logged outcome when it was invoked. -/
structure DeleteFileOutcome where
  statusCode : Nat
  db : List FileRec
  clientOutcome : Option ClientDeleteOutcome
deriving DecidableEq

/-- `endpoints/files.py::delete_file_endpoint`: 404 for a missing row, 403
unless owner or superuser, otherwise storage delete (which never raises for a
downstream HTTP error status) followed by the DB row deletion and 204. -/
def deleteFileEndpoint (db : List FileRec) (user : UserRec) (fileId : Nat)
    (downstreamStatus : Nat) : DeleteFileOutcome :=
  match db.find? (fun r => r.id == fileId) with
  | none => { statusCode := 404, db := db, clientOutcome := none }
  | some f =>
    if f.ownerId ≠ user.id ∧ ¬(user.isSuperuser = true) then
      { statusCode := 403, db := db, clientOutcome := none }
    else
      let out := storageClientDeleteFile f.bucketName f.objectName downstreamStatus
      { statusCode := 204
        db := db.filter (fun r => !(r.id == fileId))
        clientOutcome := some out.1 }

/-!
## Theorems
-/

/-- C1, counterexample: an authenticated user who does not own the bucket and
is not a superuser downloads and views a file from a private bucket — the
handlers admit every `TokenData` requester, so the spec's
owner-or-superuser-or-public rule (`specDownloadAccess`) is violated. -/
theorem C1_nonowner_token_read_counterexample :
    downloadFile
        { bucketExists := true, metadata := some { isPublic := false, ownerId := "owner1" }
          fileExists := true } "a.txt" (.tokenData "user2" false)
      = .served "a.txt"
  ∧ viewFile
        { bucketExists := true, metadata := some { isPublic := false, ownerId := "owner1" }
          fileExists := true } "a.txt" (.tokenData "user2" false)
      = .served "a.txt"
  ∧ specDownloadAccess (.tokenData "user2" false) { isPublic := false, ownerId := "owner1" }
      = false := by
  decide

/-- C2, counterexample: a PUT to `upload-direct` carrying no ticket at all is
accepted and stores the request bytes, refuting the claim that a PUT without
a valid auth ticket does not store bytes. -/
theorem C2_put_without_ticket_stores_bytes :
    directUploadFile true "a.txt"
        { ticket := none, contentType := "application/octet-stream"
          body := [84, 101], multipartFile := none }
      = .stored [84, 101]
  ∧ PutRequest.ticket
        { ticket := none, contentType := "application/octet-stream"
          body := [84, 101], multipartFile := none }
      = none := by
  decide

/-- C3, counterexample: after disconnecting the only socket of user `"u"`,
the session's subscription is still present in the router's `subscriptions`
state (though no send targets the closed socket any more), refuting the claim
that closing the socket removes all its subscriptions from the router's
state. -/
theorem C3_subscriptions_survive_disconnect_counterexample :
    (disconnect exampleManager 1).subscriptions = [("u", [("sub1", some "notes")])]
  ∧ (disconnect exampleManager 1).subscriptions ≠ []
  ∧ broadcastTargets (disconnect exampleManager 1) "u" = [] := by
  decide

/-- C5, counterexample: two bucket creations with display-name `"Docs"` — the
first returns 201, the second is rejected with HTTP 400 (the endpoint maps
the duplicate-name `ValueError` to `HTTP_400_BAD_REQUEST`), not the claimed
409, while the first bucket's record is unchanged. -/
theorem C5_duplicate_name_yields_400_not_409 :
    (createBucketEndpoint [] [] true "Docs" "" true "u1" 1).statusCode = 201
  ∧ (createBucketEndpoint
        (createBucketEndpoint [] [] true "Docs" "" true "u1" 1).db
        (createBucketEndpoint [] [] true "Docs" "" true "u1" 1).store
        true "Docs" "" true "u1" 2).statusCode = 400
  ∧ (createBucketEndpoint
        (createBucketEndpoint [] [] true "Docs" "" true "u1" 1).db
        (createBucketEndpoint [] [] true "Docs" "" true "u1" 1).store
        true "Docs" "" true "u1" 2).statusCode ≠ 409
  ∧ (createBucketEndpoint
        (createBucketEndpoint [] [] true "Docs" "" true "u1" 1).db
        (createBucketEndpoint [] [] true "Docs" "" true "u1" 1).store
        true "Docs" "" true "u1" 2).db
      = (createBucketEndpoint [] [] true "Docs" "" true "u1" 1).db := by
  decide

/-- C7, counterexample: a rejected preflight returns 403 with the body
`"CORS origin not allowed"`, not the empty body the claim states. -/
theorem C7_preflight_reject_body_counterexample :
    dispatch exampleCorsConfig [] "OPTIONS" (some "https://evil.example")
        { statusCode := 200, body := "inner", headers := [] }
      = { statusCode := 403, body := "CORS origin not allowed", headers := [] }
  ∧ (dispatch exampleCorsConfig [] "OPTIONS" (some "https://evil.example")
        { statusCode := 200, body := "inner", headers := [] }).body ≠ "" := by
  decide

/-- C9: with storage root `/data` and bucket `b`, the key `../bb/x` resolves
to `/data/bb/x`, which escapes the bucket root `/data/b` (component-wise it is
not inside it), yet `_get_object_path`'s `str(full).startswith(str(bucket))`
check accepts it because of the missing trailing separator; a genuine
traversal that fails the string-prefix test is still rejected with 400. -/
theorem C9_prefix_check_admits_sibling_escape :
    getObjectPath ["data"] "b" "../bb/x" = .ok ["data", "bb", "x"]
  ∧ List.isPrefixOf ["data", "b"] ["data", "bb", "x"] = false
  ∧ getObjectPath ["data"] "b" "../../etc/passwd" = .rejected 400 := by
  decide

/-- C2, amended: the direct-upload endpoint performs no ticket validation at
all — its outcome is identical for any value of the presented ticket, and any
PUT to an existing bucket with a safe object name stores the request body. -/
theorem C2_direct_upload_ignores_ticket (bucketDirExists : Bool) (objectName : String)
    (req : PutRequest) (t : Option String) :
    directUploadFile bucketDirExists objectName req
      = directUploadFile bucketDirExists objectName { req with ticket := t }
  ∧ (bucketDirExists = true → badObjectName objectName = false →
      strStartsWith req.contentType "multipart/form-data" = false →
      directUploadFile bucketDirExists objectName req = .stored req.body) := by
  constructor
  · rfl
  · intro h1 h2 h3
    simp [directUploadFile, h1, h2, h3]

/-- C2, witness: a PUT carrying some ticket to an existing bucket with a safe
name stores its body. -/
theorem C2_direct_upload_ignores_ticket_witness :
    directUploadFile true "b.txt"
        { ticket := some "tkt", contentType := "text/plain"
          body := [1, 2], multipartFile := none }
      = .stored [1, 2] :=
  (C2_direct_upload_ignores_ticket true "b.txt"
      { ticket := some "tkt", contentType := "text/plain"
        body := [1, 2], multipartFile := none } none).2
    rfl (by decide) (by decide)

/-- C8: a registered subscription receives the frame
`{type: "database_change", subscription_id: sid, data: payload}` iff its table
filter equals the payload's table, or its id equals the channel, or its id is
`"tables_changes"`, or its id is one of the channel aliases and equals the
channel; otherwise no frame is produced for it.  The handler's sends are
exactly the per-subscription decisions. -/
theorem C8_notification_match_iff (channel : String) (payload : ChangePayload) (e : SubEntry) :
    (notifyDecision channel payload e
        = some (e.userId, { type := "database_change", subscriptionId := e.subId, data := payload })
      ↔ (e.table = payload.table ∨ e.subId = channel ∨ e.subId = "tables_changes"
          ∨ (e.subId ∈ (["buckets_changes", "functions_changes"] : List String)
              ∧ e.subId = channel)))
  ∧ (notifyDecision channel payload e = none
      ↔ ¬(e.table = payload.table ∨ e.subId = channel ∨ e.subId = "tables_changes"
          ∨ (e.subId ∈ (["buckets_changes", "functions_changes"] : List String)
              ∧ e.subId = channel)))
  ∧ (∀ subs msg, msg ∈ handleDatabaseNotification channel payload subs
      ↔ ∃ s ∈ subs, notifyDecision channel payload s = some msg) := by
  have key : shouldNotify e.table e.subId channel payload.table = true
      ↔ (e.table = payload.table ∨ e.subId = channel ∨ e.subId = "tables_changes"
          ∨ (e.subId ∈ (["buckets_changes", "functions_changes"] : List String)
              ∧ e.subId = channel)) := by
    simp only [shouldNotify, specialChannels]
    split_ifs with h1 h2 h3 h4 <;> simp_all
  refine ⟨?_, ?_, ?_⟩
  · constructor
    · intro hsome
      cases hB : shouldNotify e.table e.subId channel payload.table with
      | false => rw [notifyDecision, hB] at hsome; simp at hsome
      | true => exact key.mp hB
    · intro hR
      simp [notifyDecision, key.mpr hR]
  · constructor
    · intro hnone
      cases hB : shouldNotify e.table e.subId channel payload.table with
      | false =>
        intro hR
        rw [key.mpr hR] at hB
        simp at hB
      | true => rw [notifyDecision, hB] at hnone; simp at hnone
    · intro hnR
      have hb : shouldNotify e.table e.subId channel payload.table = false := by
        cases hB : shouldNotify e.table e.subId channel payload.table with
        | false => rfl
        | true => exact absurd (key.mp hB) hnR
      simp [notifyDecision, hb]
  · intro subs msg
    simp [handleDatabaseNotification, List.mem_filterMap]

/-- The DB portion served by `getDatabaseOrigins` is the cached set of the
successor state, in every branch. -/
theorem getDatabaseOrigins_fst (st : CorsLoaderState) (now : Nat)
    (dbFetch : Option (List String)) :
    (getDatabaseOrigins st now dbFetch).1
      = (getDatabaseOrigins st now dbFetch).2.cachedOrigins := by
  unfold getDatabaseOrigins
  split
  · rfl
  · cases dbFetch <;> rfl

/-- C6: `get_all_origins` returns the union of the env origins, the defaults
and the (cached or refreshed) DB origins; when more than the cache duration
has elapsed since the last successful refresh a successful fetch replaces the
cache; a failed fetch leaves the state unchanged; and after `invalidate` the
next call with a successful fetch refreshes the cache. -/
theorem C6_cors_loader_contract (env : List String) (st : CorsLoaderState) (now : Nat)
    (dbFetch : Option (List String)) :
    (∀ o, o ∈ (getAllOrigins env st now dbFetch).1 ↔
      (o ∈ env ∨ o ∈ defaultOrigins ∨ o ∈ (getAllOrigins env st now dbFetch).2.cachedOrigins))
  ∧ (∀ l, cacheDuration < now - st.lastRefresh → dbFetch = some l →
      (getAllOrigins env st now dbFetch).2 = { cachedOrigins := l, lastRefresh := now })
  ∧ (dbFetch = none → (getAllOrigins env st now dbFetch).2 = st)
  ∧ (∀ l, cacheDuration ≤ now → dbFetch = some l →
      (getAllOrigins env (invalidateCache st) now dbFetch).2
        = { cachedOrigins := l, lastRefresh := now }) := by
  refine ⟨?_, ?_, ?_, ?_⟩
  · intro o
    simp [getAllOrigins, List.mem_append, getDatabaseOrigins_fst]
  · intro l hstale hsome
    subst hsome
    show (getDatabaseOrigins st now (some l)).2 = _
    unfold getDatabaseOrigins
    rw [if_neg (fun h => absurd h.1 (by omega))]
  · intro hnone
    subst hnone
    show (getDatabaseOrigins st now none).2 = st
    unfold getDatabaseOrigins
    split <;> rfl
  · intro l hnow hsome
    subst hsome
    have hnow' : 300 ≤ now := hnow
    show (getDatabaseOrigins (invalidateCache st) now (some l)).2 = _
    unfold getDatabaseOrigins invalidateCache
    rw [if_neg]
    intro h
    have h1 : now - 0 < 300 := h.1
    omega

/-- C6, witness: a stale cache (last refresh at 0, now 400) with a successful
fetch is replaced by the fetched origins. -/
theorem C6_cors_loader_contract_witness :
    (getAllOrigins ["http://env.example"]
        { cachedOrigins := ["http://old.example"], lastRefresh := 0 } 400
        (some ["http://db.example"])).2
      = { cachedOrigins := ["http://db.example"], lastRefresh := 400 } :=
  (C6_cors_loader_contract ["http://env.example"]
      { cachedOrigins := ["http://old.example"], lastRefresh := 0 } 400
      (some ["http://db.example"])).2.1 ["http://db.example"] (by decide) rfl

/-- Setting a header makes it readable. -/
theorem getHeader_setHeader_self (hs : List (String × String)) (k v : String) :
    getHeader (setHeader hs k v) k = some v := by
  induction hs with
  | nil => simp [setHeader, getHeader]
  | cons p t ih =>
    obtain ⟨k1, v1⟩ := p
    by_cases h : k1 == k
    · simp [setHeader, h, getHeader, List.find?]
    · simp [setHeader, h, getHeader, List.find?] at ih ⊢
      exact ih

/-- Setting one header leaves the others unchanged. -/
theorem getHeader_setHeader_ne (hs : List (String × String)) (k v k2 : String) (h : k2 ≠ k) :
    getHeader (setHeader hs k v) k2 = getHeader hs k2 := by
  have hkk2 : (k == k2) = false := by
    rw [beq_eq_false_iff_ne]
    exact fun e => h e.symm
  induction hs with
  | nil => simp [setHeader, getHeader, List.find?, hkk2]
  | cons p t ih =>
    obtain ⟨k1, v1⟩ := p
    by_cases h1 : (k1 == k) = true
    · have e1 : k1 = k := by rwa [beq_iff_eq] at h1
      subst e1
      simp [setHeader, getHeader, List.find?, hkk2]
    · by_cases h2 : (k1 == k2) = true
      · simp [setHeader, getHeader, List.find?, h1, h2]
      · simp [setHeader, getHeader, List.find?, h1, h2] at ih ⊢
        exact ih

/-- C7, amended: for a request with an Origin header, an allowed OPTIONS
preflight yields 200 with empty body and the `Access-Control-Allow-Origin`
header; a disallowed preflight yields 403 with body `"CORS origin not
allowed"` (amended from the claim's empty body); a non-OPTIONS request passes
the inner response through, picking up the CORS headers exactly when the
origin is allowed. -/
theorem C7_dispatch_behavior (cfg : CorsConfig) (allowed : List String) (o : String)
    (method : String) (inner : HttpResponse) :
    (method = "OPTIONS" → isOriginAllowed allowed o = true →
      (dispatch cfg allowed method (some o) inner).statusCode = 200
      ∧ (dispatch cfg allowed method (some o) inner).body = ""
      ∧ getHeader (dispatch cfg allowed method (some o) inner).headers
          "Access-Control-Allow-Origin" = some o)
  ∧ (method = "OPTIONS" → isOriginAllowed allowed o = false →
      dispatch cfg allowed method (some o) inner
        = { statusCode := 403, body := "CORS origin not allowed", headers := [] })
  ∧ (method ≠ "OPTIONS" → isOriginAllowed allowed o = false →
      dispatch cfg allowed method (some o) inner = inner)
  ∧ (method ≠ "OPTIONS" → isOriginAllowed allowed o = true →
      (dispatch cfg allowed method (some o) inner).statusCode = inner.statusCode
      ∧ (dispatch cfg allowed method (some o) inner).body = inner.body
      ∧ getHeader (dispatch cfg allowed method (some o) inner).headers
          "Access-Control-Allow-Origin" = some o) := by
  refine ⟨?_, ?_, ?_, ?_⟩
  · intro hm ha
    subst hm
    have hd : dispatch cfg allowed "OPTIONS" (some o) inner = handlePreflight cfg allowed o := by
      simp [dispatch]
    rw [hd]
    unfold handlePreflight
    rw [if_neg (by simp [ha])]
    refine ⟨rfl, rfl, ?_⟩
    split_ifs <;> simp [getHeader, List.find?]
  · intro hm ha
    subst hm
    have hd : dispatch cfg allowed "OPTIONS" (some o) inner = handlePreflight cfg allowed o := by
      simp [dispatch]
    rw [hd]
    unfold handlePreflight
    rw [if_pos (by simp [ha])]
  · intro hm ha
    have hb : (method == "OPTIONS") = false := beq_eq_false_iff_ne.mpr hm
    simp [dispatch, hb, addCorsHeaders, ha]
  · intro hm ha
    have hb : (method == "OPTIONS") = false := beq_eq_false_iff_ne.mpr hm
    have hd : dispatch cfg allowed method (some o) inner = addCorsHeaders cfg allowed o inner := by
      simp [dispatch, hb]
    rw [hd]
    unfold addCorsHeaders
    rw [if_neg (by simp [ha])]
    refine ⟨?_, ?_, ?_⟩
    · split_ifs <;> rfl
    · split_ifs <;> rfl
    · split_ifs <;> dsimp only <;>
        first
        | (rw [getHeader_setHeader_ne _ "Access-Control-Expose-Headers" _
              "Access-Control-Allow-Origin" (by decide),
            getHeader_setHeader_ne _ "Access-Control-Allow-Credentials" _
              "Access-Control-Allow-Origin" (by decide)]
           exact getHeader_setHeader_self _ _ _)
        | (rw [getHeader_setHeader_ne _ "Access-Control-Expose-Headers" _
              "Access-Control-Allow-Origin" (by decide)]
           exact getHeader_setHeader_self _ _ _)
        | (rw [getHeader_setHeader_ne _ "Access-Control-Allow-Credentials" _
              "Access-Control-Allow-Origin" (by decide)]
           exact getHeader_setHeader_self _ _ _)
        | exact getHeader_setHeader_self _ _ _

/-- C7, witness: a non-OPTIONS request from a disallowed origin is passed
through unchanged. -/
theorem C7_dispatch_behavior_witness :
    dispatch exampleCorsConfig ["http://a.example"] "GET" (some "http://b.example")
        { statusCode := 200, body := "x", headers := [] }
      = { statusCode := 200, body := "x", headers := [] } :=
  (C7_dispatch_behavior exampleCorsConfig ["http://a.example"] "http://b.example" "GET"
      { statusCode := 200, body := "x", headers := [] }).2.2.1 (by decide) (by decide)

/-- C4: when the DB insert succeeds (valid slug, no duplicate name or
storage-name, fresh id) but the storage-service bucket creation fails, the
endpoint deletes the fresh DB row and returns 500, leaving the metadata DB
exactly as before and never touching the store, so the bucket exists in
neither tier. -/
theorem C4_store_failure_compensation
    (db : List BucketRec) (store : List String) (name desc : String) (isPublic : Bool)
    (ownerId : String) (newId : Nat)
    (hvalid : validSlug (slugify name) = true)
    (hname : db.any (fun r => r.name == name) = false)
    (hslug : db.any (fun r => r.minioBucketName == slugify name) = false)
    (hid : ∀ r ∈ db, r.id ≠ newId) :
    (createBucketEndpoint db store false name desc isPublic ownerId newId).statusCode = 500
  ∧ (createBucketEndpoint db store false name desc isPublic ownerId newId).db = db
  ∧ (createBucketEndpoint db store false name desc isPublic ownerId newId).store = store
  ∧ (∀ r ∈ (createBucketEndpoint db store false name desc isPublic ownerId newId).db,
      r.name ≠ name) := by
  have hc : crudCreateBucket db name desc isPublic ownerId newId
      = .ok (db ++ [newBucketRec name desc isPublic ownerId newId],
             newBucketRec name desc isPublic ownerId newId) := by
    unfold crudCreateBucket newBucketRec
    rw [if_neg (by simp [hvalid]), if_neg (by simp [hname]), if_neg (by simp [hslug])]
  have hdel : crudDeleteBucket
      (db ++ [newBucketRec name desc isPublic ownerId newId])
      (newBucketRec name desc isPublic ownerId newId).id = db := by
    unfold crudDeleteBucket
    rw [List.filter_append]
    have h1 : db.filter
        (fun r => !(r.id == (newBucketRec name desc isPublic ownerId newId).id)) = db :=
      List.filter_eq_self.mpr (fun r hr => by simp [newBucketRec, hid r hr])
    rw [h1]
    simp [newBucketRec]
  have he : createBucketEndpoint db store false name desc isPublic ownerId newId
      = { statusCode := 500, db := db, store := store } := by
    unfold createBucketEndpoint
    rw [hc]
    simp only [Bool.false_eq_true, if_false, hdel]
  refine ⟨by rw [he], by rw [he], by rw [he], ?_⟩
  rw [he]
  intro r hr
  have := List.any_eq_false.mp hname r hr
  simpa using this

/-- C4, witness: on the empty state with a failing store call, creating
`"Docs"` yields 500 and both tiers stay empty. -/
theorem C4_store_failure_compensation_witness :
    (createBucketEndpoint [] [] false "Docs" "" true "u1" 1).statusCode = 500
  ∧ (createBucketEndpoint [] [] false "Docs" "" true "u1" 1).db = []
  ∧ (createBucketEndpoint [] [] false "Docs" "" true "u1" 1).store = [] :=
  have h := C4_store_failure_compensation [] [] "Docs" "" true "u1" 1
    (by decide) rfl rfl (by simp)
  ⟨h.1, h.2.1, h.2.2.1⟩

/-- C5, amended: after a successful create, a second create whose
display-name equals the first (or whose slug collides with it) is rejected
with HTTP 400 — the endpoint maps the crud layer's duplicate `ValueError` to
400, not the claimed 409 — and both tiers are left unchanged. -/
theorem C5_second_conflicting_create_rejected
    (db : List BucketRec) (store : List String)
    (name1 desc1 : String) (p1 : Bool) (o1 : String) (id1 : Nat)
    (name2 desc2 : String) (p2 : Bool) (o2 : String) (id2 : Nat) (storeOk2 : Bool)
    (hvalid : validSlug (slugify name1) = true)
    (hname : db.any (fun r => r.name == name1) = false)
    (hslug : db.any (fun r => r.minioBucketName == slugify name1) = false)
    (hcol : name2 = name1 ∨ slugify name2 = slugify name1) :
    (createBucketEndpoint db store true name1 desc1 p1 o1 id1).statusCode = 201
  ∧ (createBucketEndpoint
        (createBucketEndpoint db store true name1 desc1 p1 o1 id1).db
        (createBucketEndpoint db store true name1 desc1 p1 o1 id1).store
        storeOk2 name2 desc2 p2 o2 id2).statusCode = 400
  ∧ (createBucketEndpoint
        (createBucketEndpoint db store true name1 desc1 p1 o1 id1).db
        (createBucketEndpoint db store true name1 desc1 p1 o1 id1).store
        storeOk2 name2 desc2 p2 o2 id2).db
      = (createBucketEndpoint db store true name1 desc1 p1 o1 id1).db
  ∧ (createBucketEndpoint
        (createBucketEndpoint db store true name1 desc1 p1 o1 id1).db
        (createBucketEndpoint db store true name1 desc1 p1 o1 id1).store
        storeOk2 name2 desc2 p2 o2 id2).store
      = (createBucketEndpoint db store true name1 desc1 p1 o1 id1).store := by
  have hc : crudCreateBucket db name1 desc1 p1 o1 id1
      = .ok (db ++ [newBucketRec name1 desc1 p1 o1 id1], newBucketRec name1 desc1 p1 o1 id1) := by
    unfold crudCreateBucket newBucketRec
    rw [if_neg (by simp [hvalid]), if_neg (by simp [hname]), if_neg (by simp [hslug])]
  have he1 : createBucketEndpoint db store true name1 desc1 p1 o1 id1
      = { statusCode := 201
          db := db ++ [newBucketRec name1 desc1 p1 o1 id1]
          store := store ++ [(newBucketRec name1 desc1 p1 o1 id1).minioBucketName] } := by
    unfold createBucketEndpoint
    rw [hc]
    rfl
  have hvalid2 : validSlug (slugify name2) = true := by
    rcases hcol with h | h
    · rw [h]; exact hvalid
    · rw [h]; exact hvalid
  have hcrud2 : ∃ e, crudCreateBucket
      (db ++ [newBucketRec name1 desc1 p1 o1 id1]) name2 desc2 p2 o2 id2
      = Except.error e := by
    unfold crudCreateBucket
    rw [if_neg (by simp [hvalid2])]
    by_cases hn : ((db ++ [newBucketRec name1 desc1 p1 o1 id1]).any
        (fun r => r.name == name2)) = true
    · rw [if_pos hn]
      exact ⟨_, rfl⟩
    · rcases hcol with h | h
      · exfalso
        apply hn
        subst h
        simp [List.any_append, newBucketRec]
      · rw [if_neg hn, if_pos (by simp [List.any_append, newBucketRec, h])]
        exact ⟨_, rfl⟩
  obtain ⟨e, he2⟩ := hcrud2
  rw [he1]
  have he3 : createBucketEndpoint (db ++ [newBucketRec name1 desc1 p1 o1 id1])
      (store ++ [(newBucketRec name1 desc1 p1 o1 id1).minioBucketName])
      storeOk2 name2 desc2 p2 o2 id2
      = { statusCode := 400
          db := db ++ [newBucketRec name1 desc1 p1 o1 id1]
          store := store ++ [(newBucketRec name1 desc1 p1 o1 id1).minioBucketName] } := by
    unfold createBucketEndpoint
    rw [he2]
  rw [he3]
  exact ⟨rfl, rfl, rfl, rfl⟩

/-- C5, witness: the duplicate `"Docs"` create is rejected with 400. -/
theorem C5_second_conflicting_create_rejected_witness :
    (createBucketEndpoint
        (createBucketEndpoint [] [] true "Docs" "" true "u1" 1).db
        (createBucketEndpoint [] [] true "Docs" "" true "u1" 1).store
        true "Docs" "" true "u1" 2).statusCode = 400 :=
  (C5_second_conflicting_create_rejected [] [] "Docs" "" true "u1" 1 "Docs" "" true "u1" 2 true
    (by decide) rfl rfl (Or.inl rfl)).2.1

/-- C1, amended: given bucket metadata, download and view serve the file iff
the filename passes the safety checks, the bucket and file exist, and the
requester is any authenticated token holder or the bucket is public — bucket
ownership and the superuser flag play no role, and anonymous or
unauthenticated requesters are rejected on private buckets. -/
theorem C1_storage_read_access
    (w : StorageWorld) (fn : String) (r : StorageRequester) (md : BucketMetadata)
    (hmd : w.metadata = some md) :
    (downloadFile w fn r = .served fn ↔
      (badDownloadName fn = false ∧ strStartsWith fn "/" = false
        ∧ w.bucketExists = true ∧ w.fileExists = true
        ∧ (r.isAuthToken = true ∨ md.isPublic = true)))
  ∧ (viewFile w fn r = .served fn ↔
      (badDownloadName fn = false ∧ strStartsWith fn "/" = false
        ∧ w.bucketExists = true ∧ w.fileExists = true
        ∧ (r.isAuthToken = true ∨ md.isPublic = true))) := by
  obtain ⟨be, meta, fe⟩ := w
  obtain ⟨pub, owner⟩ := md
  simp only [StorageWorld.metadata] at hmd
  subst hmd
  cases r <;> cases be <;> cases fe <;> cases pub <;>
    cases hb : badDownloadName fn <;> cases hsw : strStartsWith fn "/" <;>
      simp [downloadFile, viewFile, hb, hsw, StorageRequester.isAuthToken]

/-- C1, witness: an anonymous requester is served from a public bucket. -/
theorem C1_storage_read_access_witness :
    downloadFile ⟨true, some ⟨true, "o"⟩, true⟩ "f.txt" .anonRole = .served "f.txt" :=
  ((C1_storage_read_access ⟨true, some ⟨true, "o"⟩, true⟩ "f.txt" .anonRole
      ⟨true, "o"⟩ rfl).1).mpr (by decide)

/-- C10: a delete request by the owner (or a superuser) returns 204 and
removes the DB row whatever the storage tier answered; the status and the
resulting DB are independent of the downstream status, and any downstream
HTTP error status (≥ 400) is merely logged by the storage client. -/
theorem C10_delete_file_ignores_storage_errors
    (db : List FileRec) (user : UserRec) (fileId : Nat) (f : FileRec) (d d' : Nat)
    (hf : db.find? (fun r => r.id == fileId) = some f)
    (hperm : f.ownerId = user.id ∨ user.isSuperuser = true) :
    (deleteFileEndpoint db user fileId d).statusCode = 204
  ∧ (∀ r ∈ (deleteFileEndpoint db user fileId d).db, r.id ≠ fileId)
  ∧ (deleteFileEndpoint db user fileId d).statusCode
      = (deleteFileEndpoint db user fileId d').statusCode
  ∧ (deleteFileEndpoint db user fileId d).db = (deleteFileEndpoint db user fileId d').db
  ∧ (400 ≤ d →
      (deleteFileEndpoint db user fileId d).clientOutcome
        = some (ClientDeleteOutcome.loggedError d)) := by
  have hp : ¬(f.ownerId ≠ user.id ∧ ¬(user.isSuperuser = true)) := by
    rcases hperm with h | h
    · exact fun hc => hc.1 h
    · exact fun hc => hc.2 h
  have he : ∀ e : Nat, deleteFileEndpoint db user fileId e
      = { statusCode := 204
          db := db.filter (fun r => !(r.id == fileId))
          clientOutcome := some (storageClientDeleteFile f.bucketName f.objectName e).1 } := by
    intro e
    unfold deleteFileEndpoint
    rw [hf]
    simp only [hp, if_false, ite_false]
  refine ⟨by rw [he], ?_, by rw [he d, he d'], by rw [he d, he d'], ?_⟩
  · rw [he]
    intro r hr
    have := List.of_mem_filter hr
    simpa using this
  · intro hd
    rw [he]
    have : (storageClientDeleteFile f.bucketName f.objectName d).1
        = ClientDeleteOutcome.loggedError d := by
      unfold storageClientDeleteFile raiseForStatus
      rw [if_pos hd]
    rw [this]

/-- C10, witness: the owner's delete returns 204 and the downstream 503 is
only logged. -/
theorem C10_delete_file_ignores_storage_errors_witness :
    (deleteFileEndpoint [⟨7, "u1", "docs", "k.txt"⟩] ⟨"u1", false⟩ 7 503).statusCode = 204
  ∧ (deleteFileEndpoint [⟨7, "u1", "docs", "k.txt"⟩] ⟨"u1", false⟩ 7 503).clientOutcome
      = some (ClientDeleteOutcome.loggedError 503) :=
  have h := C10_delete_file_ignores_storage_errors [⟨7, "u1", "docs", "k.txt"⟩] ⟨"u1", false⟩ 7
    ⟨7, "u1", "docs", "k.txt"⟩ 503 200 (by decide) (Or.inl rfl)
  ⟨h.1, h.2.2.2.2 (by decide)⟩

/-- `==` is symmetric in its failure, for lawful instances. -/
theorem beq_false_symm {α : Type} [BEq α] [LawfulBEq α] {a b : α}
    (h : (a == b) = false) : (b == a) = false := by
  rw [beq_eq_false_iff_ne] at h ⊢
  exact fun e => h e.symm

theorem lookup_removeKey_self {α β : Type} [BEq α] [LawfulBEq α] (k : α) (l : List (α × β)) :
    (removeKey k l).lookup k = none := by
  induction l with
  | nil => rfl
  | cons p t ih =>
    obtain ⟨k1, v1⟩ := p
    cases h : (k1 == k) with
    | true => simpa [removeKey, List.filter_cons, h] using ih
    | false =>
      simp only [removeKey, List.filter_cons, h, Bool.not_false, if_true] at ih ⊢
      simp only [List.lookup, beq_false_symm h]
      simpa [removeKey] using ih

theorem lookup_removeKey_ne {α β : Type} [BEq α] [LawfulBEq α] (k k2 : α) (l : List (α × β))
    (h : (k2 == k) = false) :
    (removeKey k l).lookup k2 = l.lookup k2 := by
  induction l with
  | nil => rfl
  | cons p t ih =>
    obtain ⟨k1, v1⟩ := p
    cases h1 : (k1 == k) with
    | true =>
      have e1 : k1 = k := by rwa [beq_iff_eq] at h1
      subst e1
      simp only [removeKey, List.filter_cons, h1, Bool.not_true, if_false] at ih ⊢
      rw [List.lookup]
      simp only [h]
      simpa [removeKey] using ih
    | false =>
      simp only [removeKey, List.filter_cons, h1, Bool.not_false, if_true] at ih ⊢
      rw [List.lookup, List.lookup]
      cases h2 : (k2 == k1) with
      | true => rfl
      | false => simpa [removeKey] using ih

theorem lookup_setKey_self {α β : Type} [BEq α] [LawfulBEq α] (k : α) (v : β)
    (l : List (α × β)) (w : β) (h : l.lookup k = some w) :
    (setKey k v l).lookup k = some v := by
  induction l with
  | nil => simp [List.lookup] at h
  | cons p t ih =>
    obtain ⟨k1, v1⟩ := p
    cases h1 : (k == k1) with
    | true =>
      have e1 : k = k1 := by rwa [beq_iff_eq] at h1
      subst e1
      show List.lookup k (List.map (fun p => if p.1 == k then (k, v) else p) ((k, v1) :: t))
        = some v
      rw [List.map_cons, if_pos (show ((k, v1).1 == k) = true from h1), List.lookup]
      simp [h1]
    | false =>
      rw [List.lookup] at h
      simp only [h1] at h
      simp only [setKey, List.map_cons, beq_false_symm h1, if_neg Bool.false_ne_true]
      rw [List.lookup]
      simp only [h1]
      simpa [setKey] using ih h

theorem lookup_setKey_ne {α β : Type} [BEq α] [LawfulBEq α] (k k2 : α) (v : β)
    (l : List (α × β)) (h : (k2 == k) = false) :
    (setKey k v l).lookup k2 = l.lookup k2 := by
  induction l with
  | nil => rfl
  | cons p t ih =>
    obtain ⟨k1, v1⟩ := p
    cases h1 : (k1 == k) with
    | true =>
      have e1 : k1 = k := by rwa [beq_iff_eq] at h1
      subst e1
      simp only [setKey, List.map_cons, if_pos h1]
      rw [List.lookup, List.lookup]
      simp only [h]
      simpa [setKey] using ih
    | false =>
      simp only [setKey, List.map_cons, if_neg (by simp [h1] : ¬((k1 == k) = true))]
      rw [List.lookup, List.lookup]
      cases h2 : (k2 == k1) with
      | true => rfl
      | false => simpa [setKey] using ih


/-- C3, amended: for a well-formed manager, disconnecting a socket leaves the
`subscriptions` map entirely unchanged (the session's subscriptions are NOT
removed from the router's state), while the socket itself is removed from the
connection registry, so no later `broadcast_to_user` targets it. -/
theorem C3_disconnect_behavior (m : ConnectionManager) (ws : Nat) (hwf : ManagerWF m) :
    (disconnect m ws).subscriptions = m.subscriptions
  ∧ ∀ uid, ws ∉ broadcastTargets (disconnect m ws) uid := by
  constructor
  · cases hcu : m.connectionUser.lookup ws <;> simp [disconnect, hcu]
  · intro uid hmem
    unfold broadcastTargets at hmem
    cases hcu : m.connectionUser.lookup ws with
    | none =>
      have hd : disconnect m ws = m := by
        unfold disconnect
        rw [hcu]
      rw [hd] at hmem
      cases hac : m.activeConnections.lookup uid with
      | none => rw [hac] at hmem; simp at hmem
      | some conns =>
        rw [hac] at hmem
        simp only [Option.getD_some] at hmem
        have ho := hwf.connsOwned uid conns ws hac hmem
        rw [hcu] at ho
        exact Option.noConfusion ho
    | some uid0 =>
      cases hac0 : m.activeConnections.lookup uid0 with
      | none =>
        have hd : disconnect m ws
            = { activeConnections := m.activeConnections
                connectionUser := removeKey ws m.connectionUser
                subscriptions := m.subscriptions } := by
          simp [disconnect, hcu, hac0]
        rw [hd] at hmem
        dsimp only at hmem
        cases hac : m.activeConnections.lookup uid with
        | none => rw [hac] at hmem; simp at hmem
        | some conns =>
          rw [hac] at hmem
          simp only [Option.getD_some] at hmem
          have ho := hwf.connsOwned uid conns ws hac hmem
          rw [hcu] at ho
          have e : uid0 = uid := Option.some.inj ho
          subst e
          rw [hac0] at hac
          exact Option.noConfusion hac
      | some conns =>
        have hnd := hwf.nodupConns uid0 conns hac0
        cases hemp : (conns.erase ws).isEmpty with
        | true =>
          have hd : disconnect m ws
              = { activeConnections := removeKey uid0 m.activeConnections
                  connectionUser := removeKey ws m.connectionUser
                  subscriptions := m.subscriptions } := by
            simp [disconnect, hcu, hac0, hemp]
          rw [hd] at hmem
          dsimp only at hmem
          cases hu : (uid == uid0) with
          | true =>
            have e : uid = uid0 := by rwa [beq_iff_eq] at hu
            subst e
            rw [lookup_removeKey_self] at hmem
            simp at hmem
          | false =>
            rw [lookup_removeKey_ne uid0 uid m.activeConnections hu] at hmem
            cases hac : m.activeConnections.lookup uid with
            | none => rw [hac] at hmem; simp at hmem
            | some c2 =>
              rw [hac] at hmem
              simp only [Option.getD_some] at hmem
              have ho := hwf.connsOwned uid c2 ws hac hmem
              rw [hcu] at ho
              have e : uid0 = uid := Option.some.inj ho
              rw [beq_eq_false_iff_ne] at hu
              exact hu e.symm
        | false =>
          have hd : disconnect m ws
              = { activeConnections := setKey uid0 (conns.erase ws) m.activeConnections
                  connectionUser := removeKey ws m.connectionUser
                  subscriptions := m.subscriptions } := by
            simp [disconnect, hcu, hac0, hemp]
          rw [hd] at hmem
          dsimp only at hmem
          cases hu : (uid == uid0) with
          | true =>
            have e : uid = uid0 := by rwa [beq_iff_eq] at hu
            subst e
            rw [lookup_setKey_self uid (conns.erase ws) m.activeConnections conns hac0] at hmem
            simp only [Option.getD_some] at hmem
            exact hnd.not_mem_erase hmem
          | false =>
            rw [lookup_setKey_ne uid0 uid (conns.erase ws) m.activeConnections hu] at hmem
            cases hac : m.activeConnections.lookup uid with
            | none => rw [hac] at hmem; simp at hmem
            | some c2 =>
              rw [hac] at hmem
              simp only [Option.getD_some] at hmem
              have ho := hwf.connsOwned uid c2 ws hac hmem
              rw [hcu] at ho
              have e : uid0 = uid := Option.some.inj ho
              rw [beq_eq_false_iff_ne] at hu
              exact hu e.symm


/-- The example manager is well formed. -/
theorem exampleManager_wf : ManagerWF exampleManager := by
  constructor
  · intro uid conns h
    cases hu : (uid == "u") with
    | true =>
      simp [exampleManager, List.lookup, hu] at h
      simp [← h]
    | false =>
      simp [exampleManager, List.lookup, hu] at h
  · intro uid conns ws h hw
    cases hu : (uid == "u") with
    | true =>
      have e : uid = "u" := by rwa [beq_iff_eq] at hu
      subst e
      simp [exampleManager, List.lookup, hu] at h
      rw [← h] at hw
      have e1 : ws = 1 := List.mem_singleton.mp hw
      subst e1
      simp [exampleManager, List.lookup]
    | false =>
      simp [exampleManager, List.lookup, hu] at h

/-- C3, witness: the concrete one-user manager after disconnecting its only
socket. -/
theorem C3_disconnect_behavior_witness :
    (disconnect exampleManager 1).subscriptions = exampleManager.subscriptions
  ∧ ∀ uid, 1 ∉ broadcastTargets (disconnect exampleManager 1) uid :=
  C3_disconnect_behavior exampleManager 1 exampleManager_wf

end SelfDB
